import Mathlib

/-!
# Shallow embedding of `src/mindcv/models/inception_v4.py`

The file has two semantic levels.

* A *shape level*: every layer is translated to a transfer function on
  4-dimensional tensor shapes `(batch, channels, height, width)`.  A layer
  application returns `Option Shape`: `none` models the external tensor
  runtime rejecting the call (channel mismatch, kernel larger than the
  padded input, concatenation of spatially incompatible tensors).  The
  output-size arithmetic of `mindspore.nn.Conv2d`, `MaxPool2d` and
  `AvgPool2d` follows the documented MindSpore formulas for the pad modes
  used by the source: `same` gives `ceil(h / stride)`, `valid` gives
  `ceil((h - k + 1) / stride)`, and `pad` with padding `p` gives
  `floor((h + 2 p - k) / stride) + 1`.

* A *value level* (further below): tensors carry rational entries, and every
  layer is translated to a function on values, with the trainable parameters
  passed explicitly and the dropout randomness passed as an explicit mask.

Initializer state of every trainable parameter is tracked with `InitKind`
so that the `_initialize_weights` pass can be modelled faithfully.
-/

namespace MindCV

/-- Shape of a 4-dimensional tensor `(batch, channels, height, width)`. -/
structure Shape where
  n : Nat
  c : Nat
  h : Nat
  w : Nat
deriving DecidableEq, Repr

/-- Shape of a 2-dimensional tensor `(batch, features)`, as produced by the
global average pooling head. -/
structure Shape2 where
  n : Nat
  c : Nat
deriving DecidableEq, Repr

/-- State of a trainable parameter: still at the framework default
initialization, or overwritten with a Xavier-uniform sample. -/
inductive InitKind where
  | default
  | xavierUniform
deriving DecidableEq, Repr

/-- The padding modes of `mindspore.nn.Conv2d` used by the source file. -/
inductive PadMode where
  | same
  | valid
  | pad
deriving DecidableEq, Repr

/-- Output size of one spatial dimension for pad mode `same`:
`ceil(h / stride)`. -/
def outDimSame (h s : Nat) : Nat := (h + s - 1) / s

/-- Output size of one spatial dimension for pad mode `valid`:
`ceil((h - k + 1) / stride)` (meaningful when `k ≤ h`). -/
def outDimValid (h k s : Nat) : Nat := (h - k + s) / s

/-- Output size of one spatial dimension for pad mode `pad` with symmetric
padding `p`: `floor((h + 2p - k) / stride) + 1` (meaningful when
`k ≤ h + 2p`). -/
def outDimPad (h k p s : Nat) : Nat := (h + 2 * p - k) / s + 1

/-- `mindspore.nn.Conv2d` as instantiated by the source: square or `(kh, kw)`
kernels, uniform stride, symmetric padding, no bias (the MindSpore default).
`weight_init` tracks the initializer of the weight tensor. -/
structure Conv2d where
  in_channels : Nat
  out_channels : Nat
  kh : Nat
  kw : Nat
  stride : Nat
  padding : Nat
  pad_mode : PadMode
  weight_init : InitKind
deriving DecidableEq, Repr

/-- Shape semantics of `nn.Conv2d.construct`. -/
def Conv2d.construct (l : Conv2d) (x : Shape) : Option Shape :=
  if x.c = l.in_channels then
    match l.pad_mode with
    | .same =>
        if l.padding = 0 then
          some ⟨x.n, l.out_channels, outDimSame x.h l.stride, outDimSame x.w l.stride⟩
        else none
    | .valid =>
        if l.padding = 0 ∧ l.kh ≤ x.h ∧ l.kw ≤ x.w then
          some ⟨x.n, l.out_channels, outDimValid x.h l.kh l.stride,
                outDimValid x.w l.kw l.stride⟩
        else none
    | .pad =>
        if l.kh ≤ x.h + 2 * l.padding ∧ l.kw ≤ x.w + 2 * l.padding then
          some ⟨x.n, l.out_channels, outDimPad x.h l.kh l.padding l.stride,
                outDimPad x.w l.kw l.padding l.stride⟩
        else none
  else none

/-- `mindspore.nn.BatchNorm2d` with its four per-channel parameter tensors
(`gamma`, `beta`, `moving_mean`, `moving_variance`); `eps` and `momentum`
are kept as rational constants. -/
structure BatchNorm2d where
  num_features : Nat
  eps : ℚ
  momentum : ℚ
  gamma_init : InitKind
  beta_init : InitKind
  moving_mean_init : InitKind
  moving_var_init : InitKind
deriving DecidableEq, Repr

/-- Shape semantics of `nn.BatchNorm2d.construct`: shape preserving, defined
when the channel count matches `num_features`. -/
def BatchNorm2d.construct (l : BatchNorm2d) (x : Shape) : Option Shape :=
  if x.c = l.num_features then some x else none

/-- `mindspore.nn.MaxPool2d` as used by the source: `nn.MaxPool2d(3, stride=2)`
with the default pad mode `valid`. -/
structure MaxPool2d where
  kernel_size : Nat
  stride : Nat
deriving DecidableEq, Repr

/-- Shape semantics of `nn.MaxPool2d.construct` (pad mode `valid`). -/
def MaxPool2d.construct (l : MaxPool2d) (x : Shape) : Option Shape :=
  if l.kernel_size ≤ x.h ∧ l.kernel_size ≤ x.w then
    some ⟨x.n, x.c, outDimValid x.h l.kernel_size l.stride,
          outDimValid x.w l.kernel_size l.stride⟩
  else none

/-- `mindspore.nn.AvgPool2d` as used by the source:
`nn.AvgPool2d(kernel_size=3, stride=1, pad_mode=same)`. -/
structure AvgPool2d where
  kernel_size : Nat
  stride : Nat
deriving DecidableEq, Repr

/-- Shape semantics of `nn.AvgPool2d.construct` (pad mode `same`). -/
def AvgPool2d.construct (l : AvgPool2d) (x : Shape) : Option Shape :=
  some ⟨x.n, x.c, outDimSame x.h l.stride, outDimSame x.w l.stride⟩

/-- `BasicConv2d`: convolution, batch normalization, ReLU
(`src/mindcv/models/inception_v4.py`, lines 46-70). -/
structure BasicConv2d where
  conv : Conv2d
  bn : BatchNorm2d
deriving DecidableEq, Repr

/-- `BasicConv2d.__init__`.  Mirrors the Python defaults
`kernel_size=1, stride=1, padding=0, pad_mode=same`; call sites below spell
every argument out.  `nn.Conv2d` leaves its weight at the framework default
initializer; `nn.BatchNorm2d(out_channels, eps=0.001, momentum=0.9997)`. -/
def BasicConv2d.make (in_channels out_channels kh kw stride padding : Nat)
    (pad_mode : PadMode) : BasicConv2d :=
  { conv := ⟨in_channels, out_channels, kh, kw, stride, padding, pad_mode, .default⟩
    bn := ⟨out_channels, 1 / 1000, 9997 / 10000, .default, .default, .default, .default⟩ }

/-- Shape semantics of `BasicConv2d.construct`: conv, then bn, then relu
(relu is shape preserving). -/
def BasicConv2d.construct (l : BasicConv2d) (x : Shape) : Option Shape :=
  (l.conv.construct x).bind fun y => l.bn.construct y

/-- A cell that can appear inside one of the source's `nn.SequentialCell`
branches. -/
inductive Cell where
  | basicConv (l : BasicConv2d)
  | maxPool (l : MaxPool2d)
  | avgPool (l : AvgPool2d)
deriving DecidableEq, Repr

/-- Shape semantics of a single cell. -/
def Cell.construct (c : Cell) (x : Shape) : Option Shape :=
  match c with
  | .basicConv l => l.construct x
  | .maxPool l => l.construct x
  | .avgPool l => l.construct x

/-- Shape semantics of `nn.SequentialCell`: apply the cells in order. -/
def applyCells (cs : List Cell) (x : Shape) : Option Shape :=
  match cs with
  | [] => some x
  | c :: rest => (c.construct x).bind (applyCells rest)

/-- Shape semantics of `ops.concat((a, b), axis=1)`: channel counts add,
all other dimensions must agree. -/
def concat2 (a b : Shape) : Option Shape :=
  if a.n = b.n ∧ a.h = b.h ∧ a.w = b.w then some ⟨a.n, a.c + b.c, a.h, a.w⟩ else none

/-- Shape semantics of `ops.concat((a, b, c), axis=1)`. -/
def concat3 (a b c : Shape) : Option Shape :=
  (concat2 a b).bind fun ab => concat2 ab c

/-- Shape semantics of `ops.concat((a, b, c, d), axis=1)`. -/
def concat4 (a b c d : Shape) : Option Shape :=
  (concat3 a b c).bind fun abc => concat2 abc d

/-- The `Stem` module (lines 73-112): fields mirror the attributes created in
`Stem.__init__`. -/
structure Stem where
  conv2d_1a_3x3 : BasicConv2d
  conv2d_2a_3x3 : BasicConv2d
  conv2d_2b_3x3 : BasicConv2d
  mixed_3a_branch_0 : MaxPool2d
  mixed_3a_branch_1 : BasicConv2d
  mixed_4a_branch_0 : List Cell
  mixed_4a_branch_1 : List Cell
  mixed_5a_branch_0 : BasicConv2d
  mixed_5a_branch_1 : MaxPool2d
deriving DecidableEq, Repr

/-- `Stem.__init__(in_channels)`. -/
def Stem.make (in_channels : Nat) : Stem :=
  { conv2d_1a_3x3 := BasicConv2d.make in_channels 32 3 3 2 0 .valid
    conv2d_2a_3x3 := BasicConv2d.make 32 32 3 3 1 0 .valid
    conv2d_2b_3x3 := BasicConv2d.make 32 64 3 3 1 1 .pad
    mixed_3a_branch_0 := ⟨3, 2⟩
    mixed_3a_branch_1 := BasicConv2d.make 64 96 3 3 2 0 .valid
    mixed_4a_branch_0 :=
      [ .basicConv (BasicConv2d.make 160 64 1 1 1 0 .same),
        .basicConv (BasicConv2d.make 64 96 3 3 1 0 .valid) ]
    mixed_4a_branch_1 :=
      [ .basicConv (BasicConv2d.make 160 64 1 1 1 0 .same),
        .basicConv (BasicConv2d.make 64 64 1 7 1 0 .same),
        .basicConv (BasicConv2d.make 64 64 7 1 1 0 .same),
        .basicConv (BasicConv2d.make 64 96 3 3 1 0 .valid) ]
    mixed_5a_branch_0 := BasicConv2d.make 192 192 3 3 2 0 .valid
    mixed_5a_branch_1 := ⟨3, 2⟩ }

/-- Shape semantics of `Stem.construct`. -/
def Stem.construct (s : Stem) (x : Shape) : Option Shape :=
  (s.conv2d_1a_3x3.construct x).bind fun x1 =>
  (s.conv2d_2a_3x3.construct x1).bind fun x2 =>
  (s.conv2d_2b_3x3.construct x2).bind fun x3 =>
  (s.mixed_3a_branch_0.construct x3).bind fun a0 =>
  (s.mixed_3a_branch_1.construct x3).bind fun a1 =>
  (concat2 a0 a1).bind fun x4 =>
  (applyCells s.mixed_4a_branch_0 x4).bind fun b0 =>
  (applyCells s.mixed_4a_branch_1 x4).bind fun b1 =>
  (concat2 b0 b1).bind fun x5 =>
  (s.mixed_5a_branch_0.construct x5).bind fun c0 =>
  (s.mixed_5a_branch_1.construct x5).bind fun c1 =>
  concat2 c0 c1

/-- The `InceptionA` module (lines 115-139). -/
structure InceptionA where
  branch_0 : BasicConv2d
  branch_1 : List Cell
  branch_2 : List Cell
  branch_3 : List Cell
deriving DecidableEq, Repr

/-- `InceptionA.__init__()`. -/
def InceptionA.make : InceptionA :=
  { branch_0 := BasicConv2d.make 384 96 1 1 1 0 .same
    branch_1 :=
      [ .basicConv (BasicConv2d.make 384 64 1 1 1 0 .same),
        .basicConv (BasicConv2d.make 64 96 3 3 1 1 .pad) ]
    branch_2 :=
      [ .basicConv (BasicConv2d.make 384 64 1 1 1 0 .same),
        .basicConv (BasicConv2d.make 64 96 3 3 1 1 .pad),
        .basicConv (BasicConv2d.make 96 96 3 3 1 1 .pad) ]
    branch_3 :=
      [ .avgPool ⟨3, 1⟩,
        .basicConv (BasicConv2d.make 384 96 1 1 1 0 .same) ] }

/-- Shape semantics of `InceptionA.construct`. -/
def InceptionA.construct (m : InceptionA) (x : Shape) : Option Shape :=
  (m.branch_0.construct x).bind fun x0 =>
  (applyCells m.branch_1 x).bind fun x1 =>
  (applyCells m.branch_2 x).bind fun x2 =>
  (applyCells m.branch_3 x).bind fun x3 =>
  concat4 x0 x1 x2 x3

/-- The `InceptionB` module (lines 142-170). -/
structure InceptionB where
  branch_0 : BasicConv2d
  branch_1 : List Cell
  branch_2 : List Cell
  branch_3 : List Cell
deriving DecidableEq, Repr

/-- `InceptionB.__init__()`. -/
def InceptionB.make : InceptionB :=
  { branch_0 := BasicConv2d.make 1024 384 1 1 1 0 .same
    branch_1 :=
      [ .basicConv (BasicConv2d.make 1024 192 1 1 1 0 .same),
        .basicConv (BasicConv2d.make 192 224 1 7 1 0 .same),
        .basicConv (BasicConv2d.make 224 256 7 1 1 0 .same) ]
    branch_2 :=
      [ .basicConv (BasicConv2d.make 1024 192 1 1 1 0 .same),
        .basicConv (BasicConv2d.make 192 192 7 1 1 0 .same),
        .basicConv (BasicConv2d.make 192 224 1 7 1 0 .same),
        .basicConv (BasicConv2d.make 224 224 7 1 1 0 .same),
        .basicConv (BasicConv2d.make 224 256 1 7 1 0 .same) ]
    branch_3 :=
      [ .avgPool ⟨3, 1⟩,
        .basicConv (BasicConv2d.make 1024 128 1 1 1 0 .same) ] }

/-- Shape semantics of `InceptionB.construct`. -/
def InceptionB.construct (m : InceptionB) (x : Shape) : Option Shape :=
  (m.branch_0.construct x).bind fun x0 =>
  (applyCells m.branch_1 x).bind fun x1 =>
  (applyCells m.branch_2 x).bind fun x2 =>
  (applyCells m.branch_3 x).bind fun x3 =>
  concat4 x0 x1 x2 x3

/-- The `ReductionA` module (lines 173-190). -/
structure ReductionA where
  branch_0 : BasicConv2d
  branch_1 : List Cell
  branch_2 : MaxPool2d
deriving DecidableEq, Repr

/-- `ReductionA.__init__()`. -/
def ReductionA.make : ReductionA :=
  { branch_0 := BasicConv2d.make 384 384 3 3 2 0 .valid
    branch_1 :=
      [ .basicConv (BasicConv2d.make 384 192 1 1 1 0 .same),
        .basicConv (BasicConv2d.make 192 224 3 3 1 1 .pad),
        .basicConv (BasicConv2d.make 224 256 3 3 2 0 .valid) ]
    branch_2 := ⟨3, 2⟩ }

/-- Shape semantics of `ReductionA.construct`. -/
def ReductionA.construct (m : ReductionA) (x : Shape) : Option Shape :=
  (m.branch_0.construct x).bind fun x0 =>
  (applyCells m.branch_1 x).bind fun x1 =>
  (m.branch_2.construct x).bind fun x2 =>
  concat3 x0 x1 x2

/-- The `ReductionB` module (lines 193-214). -/
structure ReductionB where
  branch_0 : List Cell
  branch_1 : List Cell
  branch_2 : MaxPool2d
deriving DecidableEq, Repr

/-- `ReductionB.__init__()`. -/
def ReductionB.make : ReductionB :=
  { branch_0 :=
      [ .basicConv (BasicConv2d.make 1024 192 1 1 1 0 .same),
        .basicConv (BasicConv2d.make 192 192 3 3 2 0 .valid) ]
    branch_1 :=
      [ .basicConv (BasicConv2d.make 1024 256 1 1 1 0 .same),
        .basicConv (BasicConv2d.make 256 256 1 7 1 0 .same),
        .basicConv (BasicConv2d.make 256 320 7 1 1 0 .same),
        .basicConv (BasicConv2d.make 320 320 3 3 2 0 .valid) ]
    branch_2 := ⟨3, 2⟩ }

/-- Shape semantics of `ReductionB.construct`. -/
def ReductionB.construct (m : ReductionB) (x : Shape) : Option Shape :=
  (applyCells m.branch_0 x).bind fun x0 =>
  (applyCells m.branch_1 x).bind fun x1 =>
  (m.branch_2.construct x).bind fun x2 =>
  concat3 x0 x1 x2

/-- The `InceptionC` module (lines 217-251). -/
structure InceptionC where
  branch_0 : BasicConv2d
  branch_1 : BasicConv2d
  branch_1_1 : BasicConv2d
  branch_1_2 : BasicConv2d
  branch_2 : List Cell
  branch_2_1 : BasicConv2d
  branch_2_2 : BasicConv2d
  branch_3 : List Cell
deriving DecidableEq, Repr

/-- `InceptionC.__init__()`. -/
def InceptionC.make : InceptionC :=
  { branch_0 := BasicConv2d.make 1536 256 1 1 1 0 .same
    branch_1 := BasicConv2d.make 1536 384 1 1 1 0 .same
    branch_1_1 := BasicConv2d.make 384 256 1 3 1 0 .same
    branch_1_2 := BasicConv2d.make 384 256 3 1 1 0 .same
    branch_2 :=
      [ .basicConv (BasicConv2d.make 1536 384 1 1 1 0 .same),
        .basicConv (BasicConv2d.make 384 448 3 1 1 0 .same),
        .basicConv (BasicConv2d.make 448 512 1 3 1 0 .same) ]
    branch_2_1 := BasicConv2d.make 512 256 1 3 1 0 .same
    branch_2_2 := BasicConv2d.make 512 256 3 1 1 0 .same
    branch_3 :=
      [ .avgPool ⟨3, 1⟩,
        .basicConv (BasicConv2d.make 1536 256 1 1 1 0 .same) ] }

/-- Shape semantics of `InceptionC.construct`. -/
def InceptionC.construct (m : InceptionC) (x : Shape) : Option Shape :=
  (m.branch_0.construct x).bind fun x0 =>
  (m.branch_1.construct x).bind fun y1 =>
  (m.branch_1_1.construct y1).bind fun y11 =>
  (m.branch_1_2.construct y1).bind fun y12 =>
  (concat2 y11 y12).bind fun x1 =>
  (applyCells m.branch_2 x).bind fun y2 =>
  (m.branch_2_1.construct y2).bind fun y21 =>
  (m.branch_2_2.construct y2).bind fun y22 =>
  (concat2 y21 y22).bind fun x2 =>
  (applyCells m.branch_3 x).bind fun x3 =>
  concat4 x0 x1 x2 x3

/-- One element of the `blocks` list assembled by `InceptionV4.__init__`. -/
inductive Block where
  | stem (b : Stem)
  | inceptionA (b : InceptionA)
  | reductionA (b : ReductionA)
  | inceptionB (b : InceptionB)
  | reductionB (b : ReductionB)
  | inceptionC (b : InceptionC)
deriving DecidableEq, Repr

/-- The constructor kind of a block, used to state ordering properties. -/
inductive BlockKind where
  | stem
  | inceptionA
  | reductionA
  | inceptionB
  | reductionB
  | inceptionC
deriving DecidableEq, Repr

/-- The kind of a block. -/
def Block.kind : Block → BlockKind
  | .stem _ => .stem
  | .inceptionA _ => .inceptionA
  | .reductionA _ => .reductionA
  | .inceptionB _ => .inceptionB
  | .reductionB _ => .reductionB
  | .inceptionC _ => .inceptionC

/-- Shape semantics of one block. -/
def Block.construct (b : Block) (x : Shape) : Option Shape :=
  match b with
  | .stem m => m.construct x
  | .inceptionA m => m.construct x
  | .reductionA m => m.construct x
  | .inceptionB m => m.construct x
  | .reductionB m => m.construct x
  | .inceptionC m => m.construct x

/-- Shape semantics of `nn.SequentialCell(blocks)`. -/
def applyBlocks (bs : List Block) (x : Shape) : Option Shape :=
  match bs with
  | [] => some x
  | b :: rest => (b.construct x).bind (applyBlocks rest)

/-- Modelled from the spec: `GlobalAvgPooling` (imported from
`.layers.pooling`, not under `src/`) is the global average pool over the
spatial dimensions, `(batch, channels, height, width)` to
`(batch, channels)`. -/
def GlobalAvgPooling.construct (x : Shape) : Shape2 := ⟨x.n, x.c⟩

/-- Shape semantics of `nn.Dropout`: shape preserving. -/
def dropoutShape (x : Shape2) : Shape2 := x

/-- `mindspore.nn.Dense(in_channels, out_channels)` with its weight matrix
and bias vector left at the framework default initializers. -/
structure Dense where
  in_channels : Nat
  out_channels : Nat
  weight_init : InitKind
  bias_init : InitKind
deriving DecidableEq, Repr

/-- Shape semantics of `nn.Dense.construct` on a `(batch, features)` input. -/
def Dense.construct (l : Dense) (x : Shape2) : Option Shape2 :=
  if x.c = l.in_channels then some ⟨x.n, l.out_channels⟩ else none

/-- The `InceptionV4` module (lines 254-300): `features` is the
`nn.SequentialCell` of blocks; the head is global average pooling,
`nn.Dropout(1 - drop_rate)` (stored by its keep probability) and the
`nn.Dense` classifier. -/
structure InceptionV4 where
  features : List Block
  dropout_keep_prob : ℚ
  num_features : Nat
  classifier : Dense
deriving DecidableEq, Repr

/-! ## The weight-initialization pass

`InceptionV4._initialize_weights` (lines 280-285) walks `cells_and_names()`
and, for every cell that is an `nn.Conv2d`, replaces its weight tensor with a
`XavierUniform()` sample; nothing else is touched.  The walkers below visit
exactly the cells of each structure. -/

/-- `_initialize_weights` on a single `nn.Conv2d`. -/
def Conv2d.initWeights (l : Conv2d) : Conv2d := { l with weight_init := .xavierUniform }

/-- `_initialize_weights` restricted to a `BasicConv2d` subtree: the inner
`nn.Conv2d` weight is re-initialized, the `nn.BatchNorm2d` is not an
`nn.Conv2d` and keeps all of its parameters. -/
def BasicConv2d.initWeights (l : BasicConv2d) : BasicConv2d :=
  { conv := l.conv.initWeights, bn := l.bn }

/-- `_initialize_weights` restricted to one sequential-branch cell. -/
def Cell.initWeights : Cell → Cell
  | .basicConv l => .basicConv l.initWeights
  | .maxPool l => .maxPool l
  | .avgPool l => .avgPool l

/-- `_initialize_weights` restricted to a `Stem` subtree. -/
def Stem.initWeights (s : Stem) : Stem :=
  { conv2d_1a_3x3 := s.conv2d_1a_3x3.initWeights
    conv2d_2a_3x3 := s.conv2d_2a_3x3.initWeights
    conv2d_2b_3x3 := s.conv2d_2b_3x3.initWeights
    mixed_3a_branch_0 := s.mixed_3a_branch_0
    mixed_3a_branch_1 := s.mixed_3a_branch_1.initWeights
    mixed_4a_branch_0 := s.mixed_4a_branch_0.map Cell.initWeights
    mixed_4a_branch_1 := s.mixed_4a_branch_1.map Cell.initWeights
    mixed_5a_branch_0 := s.mixed_5a_branch_0.initWeights
    mixed_5a_branch_1 := s.mixed_5a_branch_1 }

/-- `_initialize_weights` restricted to an `InceptionA` subtree. -/
def InceptionA.initWeights (m : InceptionA) : InceptionA :=
  { branch_0 := m.branch_0.initWeights
    branch_1 := m.branch_1.map Cell.initWeights
    branch_2 := m.branch_2.map Cell.initWeights
    branch_3 := m.branch_3.map Cell.initWeights }

/-- `_initialize_weights` restricted to an `InceptionB` subtree. -/
def InceptionB.initWeights (m : InceptionB) : InceptionB :=
  { branch_0 := m.branch_0.initWeights
    branch_1 := m.branch_1.map Cell.initWeights
    branch_2 := m.branch_2.map Cell.initWeights
    branch_3 := m.branch_3.map Cell.initWeights }

/-- `_initialize_weights` restricted to a `ReductionA` subtree. -/
def ReductionA.initWeights (m : ReductionA) : ReductionA :=
  { branch_0 := m.branch_0.initWeights
    branch_1 := m.branch_1.map Cell.initWeights
    branch_2 := m.branch_2 }

/-- `_initialize_weights` restricted to a `ReductionB` subtree. -/
def ReductionB.initWeights (m : ReductionB) : ReductionB :=
  { branch_0 := m.branch_0.map Cell.initWeights
    branch_1 := m.branch_1.map Cell.initWeights
    branch_2 := m.branch_2 }

/-- `_initialize_weights` restricted to an `InceptionC` subtree. -/
def InceptionC.initWeights (m : InceptionC) : InceptionC :=
  { branch_0 := m.branch_0.initWeights
    branch_1 := m.branch_1.initWeights
    branch_1_1 := m.branch_1_1.initWeights
    branch_1_2 := m.branch_1_2.initWeights
    branch_2 := m.branch_2.map Cell.initWeights
    branch_2_1 := m.branch_2_1.initWeights
    branch_2_2 := m.branch_2_2.initWeights
    branch_3 := m.branch_3.map Cell.initWeights }

/-- `_initialize_weights` restricted to one block. -/
def Block.initWeights : Block → Block
  | .stem b => .stem b.initWeights
  | .inceptionA b => .inceptionA b.initWeights
  | .reductionA b => .reductionA b.initWeights
  | .inceptionB b => .inceptionB b.initWeights
  | .reductionB b => .reductionB b.initWeights
  | .inceptionC b => .inceptionC b.initWeights

/-- `InceptionV4._initialize_weights`: every `nn.Conv2d` weight in the whole
cell tree is re-initialized with `XavierUniform()`; the `nn.Dense` classifier
is not an `nn.Conv2d`, so it is untouched. -/
def InceptionV4.initWeights (m : InceptionV4) : InceptionV4 :=
  { features := m.features.map Block.initWeights
    dropout_keep_prob := m.dropout_keep_prob
    num_features := m.num_features
    classifier := m.classifier }

/-! ## Parameter enumeration

To state what the initialization pass touched, every trainable parameter of
the model is listed with its kind and its current initializer. -/

/-- The kind of a trainable parameter tensor. -/
inductive ParamKind where
  | convWeight
  | bnGamma
  | bnBeta
  | bnMovingMean
  | bnMovingVar
  | denseWeight
  | denseBias
deriving DecidableEq, Repr

/-- One trainable parameter tensor: its kind and its initializer state. -/
structure Param where
  kind : ParamKind
  init : InitKind
deriving DecidableEq, Repr

/-- Parameters of an `nn.Conv2d` (no bias: MindSpore default
`has_bias=False`). -/
def Conv2d.params (l : Conv2d) : List Param := [⟨.convWeight, l.weight_init⟩]

/-- Parameters of an `nn.BatchNorm2d`. -/
def BatchNorm2d.params (l : BatchNorm2d) : List Param :=
  [⟨.bnGamma, l.gamma_init⟩, ⟨.bnBeta, l.beta_init⟩,
   ⟨.bnMovingMean, l.moving_mean_init⟩, ⟨.bnMovingVar, l.moving_var_init⟩]

/-- Parameters of a `BasicConv2d`. -/
def BasicConv2d.params (l : BasicConv2d) : List Param :=
  l.conv.params ++ l.bn.params

/-- Parameters of one sequential-branch cell (pooling cells have none). -/
def Cell.params : Cell → List Param
  | .basicConv l => l.params
  | .maxPool _ => []
  | .avgPool _ => []

/-- Parameters of a list of cells. -/
def cellsParams (cs : List Cell) : List Param := cs.flatMap Cell.params

/-- Parameters of a `Stem`. -/
def Stem.params (s : Stem) : List Param :=
  s.conv2d_1a_3x3.params ++ s.conv2d_2a_3x3.params ++ s.conv2d_2b_3x3.params ++
  s.mixed_3a_branch_1.params ++ cellsParams s.mixed_4a_branch_0 ++
  cellsParams s.mixed_4a_branch_1 ++ s.mixed_5a_branch_0.params

/-- Parameters of an `InceptionA`. -/
def InceptionA.params (m : InceptionA) : List Param :=
  m.branch_0.params ++ cellsParams m.branch_1 ++ cellsParams m.branch_2 ++
  cellsParams m.branch_3

/-- Parameters of an `InceptionB`. -/
def InceptionB.params (m : InceptionB) : List Param :=
  m.branch_0.params ++ cellsParams m.branch_1 ++ cellsParams m.branch_2 ++
  cellsParams m.branch_3

/-- Parameters of a `ReductionA`. -/
def ReductionA.params (m : ReductionA) : List Param :=
  m.branch_0.params ++ cellsParams m.branch_1

/-- Parameters of a `ReductionB`. -/
def ReductionB.params (m : ReductionB) : List Param :=
  cellsParams m.branch_0 ++ cellsParams m.branch_1

/-- Parameters of an `InceptionC`. -/
def InceptionC.params (m : InceptionC) : List Param :=
  m.branch_0.params ++ m.branch_1.params ++ m.branch_1_1.params ++
  m.branch_1_2.params ++ cellsParams m.branch_2 ++ m.branch_2_1.params ++
  m.branch_2_2.params ++ cellsParams m.branch_3

/-- Parameters of one block. -/
def Block.params : Block → List Param
  | .stem b => b.params
  | .inceptionA b => b.params
  | .reductionA b => b.params
  | .inceptionB b => b.params
  | .reductionB b => b.params
  | .inceptionC b => b.params

/-- Parameters of an `nn.Dense` (weight and bias). -/
def Dense.params (l : Dense) : List Param :=
  [⟨.denseWeight, l.weight_init⟩, ⟨.denseBias, l.bias_init⟩]

/-- All trainable parameters of the model. -/
def InceptionV4.params (m : InceptionV4) : List Param :=
  m.features.flatMap Block.params ++ m.classifier.params

/-! ## `InceptionV4.__init__` and the forward pass -/

/-- The `blocks` list assembled by `InceptionV4.__init__` (lines 262-273):
`Stem(in_channels)`, then four `InceptionA()`, one `ReductionA()`, seven
`InceptionB()`, one `ReductionB()`, three `InceptionC()`. -/
def inceptionV4Blocks (in_channels : Nat) : List Block :=
  [Block.stem (Stem.make in_channels)] ++
  List.replicate 4 (Block.inceptionA InceptionA.make) ++
  [Block.reductionA ReductionA.make] ++
  List.replicate 7 (Block.inceptionB InceptionB.make) ++
  [Block.reductionB ReductionB.make] ++
  List.replicate 3 (Block.inceptionC InceptionC.make)

/-- `InceptionV4.__init__(in_channels, num_classes, drop_rate)`: assembles
the blocks, `nn.Dropout(1 - drop_rate)`, `nn.Dense(1536, num_classes)`, and
finally calls `self._initialize_weights()`. -/
def InceptionV4.make (in_channels num_classes : Nat) (drop_rate : ℚ) : InceptionV4 :=
  InceptionV4.initWeights
    { features := inceptionV4Blocks in_channels
      dropout_keep_prob := 1 - drop_rate
      num_features := 1536
      classifier := ⟨1536, num_classes, .default, .default⟩ }

/-- Shape semantics of `InceptionV4.forward_features`. -/
def InceptionV4.forward_features (m : InceptionV4) (x : Shape) : Option Shape :=
  applyBlocks m.features x

/-- Shape semantics of `InceptionV4.forward_head`: pool, dropout,
classifier. -/
def InceptionV4.forward_head (m : InceptionV4) (x : Shape) : Option Shape2 :=
  m.classifier.construct (dropoutShape (GlobalAvgPooling.construct x))

/-- Shape semantics of `InceptionV4.construct`: `forward_features` then
`forward_head`. -/
def InceptionV4.construct (m : InceptionV4) (x : Shape) : Option Shape2 :=
  (m.forward_features x).bind fun y => m.forward_head y

/-! ## Value-level semantics

Tensors carry rational entries: an `Image` is a height-major matrix, a
`Chans` is one sample in channel-major layout, a `Batch` is a list of
samples.  Trainable parameters are passed explicitly next to the layer
configuration, and the randomness consumed by `nn.Dropout` in training mode
is passed as an explicit boolean mask (the Bernoulli draws). -/

/-- One spatial plane (height × width) of rational entries. -/
abbrev Image := List (List ℚ)

/-- One sample in channel-major layout. -/
abbrev Chans := List Image

/-- A batch of samples. -/
abbrev Batch := List Chans

/-- Entry of an image at integer coordinates, with entries outside the
image read as `0` (this realises zero padding). -/
def pixel (img : Image) (i j : Int) : ℚ :=
  if 0 ≤ i ∧ 0 ≤ j then (img.getD i.toNat []).getD j.toNat 0 else 0

/-- All kernel offsets of a `kh × kw` window. -/
def kernelWindow (kh kw : Nat) : List (Nat × Nat) :=
  (List.range kh).flatMap fun a => (List.range kw).map fun b => (a, b)

/-- Height of a sample (its first channel). -/
def chHeight (x : Chans) : Nat := (x.getD 0 []).length

/-- Width of a sample (its first channel). -/
def chWidth (x : Chans) : Nat := ((x.getD 0 []).getD 0 []).length

/-- One output channel of a cross-correlation: `wOut` is the kernel for this
output channel (channel-major), `pt`/`pl` the top/left padding offsets. -/
def convChannel (wOut : Chans) (x : Chans) (stride : Nat) (pt pl : Int)
    (kh kw oh ow : Nat) : Image :=
  (List.range oh).map fun i => (List.range ow).map fun j =>
    (List.zipWith (fun wimg ximg =>
        ((kernelWindow kh kw).map fun ab =>
          pixel wimg ab.1 ab.2 *
          pixel ximg ((i * stride + ab.1 : Int) - pt) ((j * stride + ab.2 : Int) - pl)).sum)
      wOut x).sum

/-- Output height of an `nn.Conv2d` for input height `h`. -/
def Conv2d.outH (l : Conv2d) (h : Nat) : Nat :=
  match l.pad_mode with
  | .same => outDimSame h l.stride
  | .valid => outDimValid h l.kh l.stride
  | .pad => outDimPad h l.kh l.padding l.stride

/-- Output width of an `nn.Conv2d` for input width `w`. -/
def Conv2d.outW (l : Conv2d) (w : Nat) : Nat :=
  match l.pad_mode with
  | .same => outDimSame w l.stride
  | .valid => outDimValid w l.kw l.stride
  | .pad => outDimPad w l.kw l.padding l.stride

/-- Top padding of an `nn.Conv2d` for input height `h`: for pad mode `same`,
half (rounded down) of `max((outH - 1) * stride + kh - h, 0)`, the extra row
going to the bottom; `0` for `valid`; `padding` for `pad`. -/
def Conv2d.padTop (l : Conv2d) (h : Nat) : Int :=
  match l.pad_mode with
  | .same => (((l.outH h - 1) * l.stride + l.kh - h) / 2 : Nat)
  | .valid => 0
  | .pad => l.padding

/-- Left padding of an `nn.Conv2d` for input width `w`. -/
def Conv2d.padLeft (l : Conv2d) (w : Nat) : Int :=
  match l.pad_mode with
  | .same => (((l.outW w - 1) * l.stride + l.kw - w) / 2 : Nat)
  | .valid => 0
  | .pad => l.padding

/-- Value semantics of `nn.Conv2d.construct`: the weight is out-channel
major, `weight[oc][ic][ki][kj]`; no bias (MindSpore default). -/
def Conv2d.constructVal (l : Conv2d) (weight : List Chans) (x : Chans) : Chans :=
  let h := chHeight x
  let w := chWidth x
  weight.map fun wOut =>
    convChannel wOut x l.stride (l.padTop h) (l.padLeft w) l.kh l.kw (l.outH h) (l.outW w)

/-- Value semantics of `nn.BatchNorm2d` in inference mode: a per-channel
affine map.  The framework computes `scale = gamma / sqrt(moving_variance +
eps)` and `shift = beta - moving_mean * scale`; the parameters are taken
here in that folded affine form. -/
def bnVal (scale shift : List ℚ) (x : Chans) : Chans :=
  List.zipWith (fun p img => img.map (List.map fun v => p.1 * v + p.2))
    (scale.zip shift) x

/-- Value semantics of `nn.ReLU`. -/
def reluVal (x : Chans) : Chans := x.map (List.map (List.map fun v => max v 0))

/-- Value semantics of one channel of `nn.MaxPool2d` (pad mode `valid`). -/
def maxPoolChannelVal (k s : Nat) (img : Image) : Image :=
  (List.range (outDimValid img.length k s)).map fun i =>
    (List.range (outDimValid (img.getD 0 []).length k s)).map fun j =>
      (((kernelWindow k k).map fun ab =>
          pixel img (i * s + ab.1 : Int) (j * s + ab.2 : Int)).max?).getD 0

/-- Value semantics of `nn.MaxPool2d.construct`. -/
def MaxPool2d.constructVal (l : MaxPool2d) (x : Chans) : Chans :=
  x.map (maxPoolChannelVal l.kernel_size l.stride)

/-- Value semantics of one channel of `nn.AvgPool2d` with pad mode `same`:
zero padding rows and columns take part in the sum and the divisor is the
full window size `k * k`. -/
def avgPoolChannelVal (k s : Nat) (img : Image) : Image :=
  let h := img.length
  let w := (img.getD 0 []).length
  let oh := outDimSame h s
  let ow := outDimSame w s
  let pt : Int := (((oh - 1) * s + k - h) / 2 : Nat)
  let pl : Int := (((ow - 1) * s + k - w) / 2 : Nat)
  (List.range oh).map fun i => (List.range ow).map fun j =>
    ((kernelWindow k k).map fun ab =>
      pixel img ((i * s + ab.1 : Int) - pt) ((j * s + ab.2 : Int) - pl)).sum / (k * k : ℚ)

/-- Value semantics of `nn.AvgPool2d.construct`. -/
def AvgPool2d.constructVal (l : AvgPool2d) (x : Chans) : Chans :=
  x.map (avgPoolChannelVal l.kernel_size l.stride)

/-- Value semantics of `ops.concat(xs, axis=1)` on one sample. -/
def concatVal (xs : List Chans) : Chans := xs.flatten

/-- Parameters of an `nn.Conv2d`: the weight tensor. -/
structure ConvParams where
  weight : List Chans
deriving DecidableEq, Repr

/-- Folded inference-mode parameters of an `nn.BatchNorm2d`. -/
structure BNParams where
  scale : List ℚ
  shift : List ℚ
deriving DecidableEq, Repr

/-- Parameters of a `BasicConv2d`. -/
structure BasicConv2dParams where
  conv : ConvParams
  bn : BNParams
deriving DecidableEq, Repr

/-- Value semantics of `BasicConv2d.construct`: conv, bn, relu. -/
def BasicConv2d.constructVal (l : BasicConv2d) (p : BasicConv2dParams) (x : Chans) : Chans :=
  reluVal (bnVal p.bn.scale p.bn.shift (l.conv.constructVal p.conv.weight x))

/-- Value semantics of one sequential-branch cell.  Pooling cells have no
parameters, so their slot in the branch parameter list is ignored. -/
def Cell.constructVal (c : Cell) (p : BasicConv2dParams) (x : Chans) : Chans :=
  match c with
  | .basicConv l => l.constructVal p x
  | .maxPool l => l.constructVal x
  | .avgPool l => l.constructVal x

/-- Value semantics of `nn.SequentialCell`, parameters passed cell by
cell. -/
def applyCellsVal : List Cell → List BasicConv2dParams → Chans → Chans
  | c :: cs, p :: ps, x => applyCellsVal cs ps (c.constructVal p x)
  | _, _, x => x

/-- Parameters of a `Stem` (field per field). -/
structure StemParams where
  conv2d_1a_3x3 : BasicConv2dParams
  conv2d_2a_3x3 : BasicConv2dParams
  conv2d_2b_3x3 : BasicConv2dParams
  mixed_3a_branch_1 : BasicConv2dParams
  mixed_4a_branch_0 : List BasicConv2dParams
  mixed_4a_branch_1 : List BasicConv2dParams
  mixed_5a_branch_0 : BasicConv2dParams
deriving DecidableEq, Repr

/-- Value semantics of `Stem.construct`. -/
def Stem.constructVal (s : Stem) (p : StemParams) (x : Chans) : Chans :=
  let x1 := s.conv2d_1a_3x3.constructVal p.conv2d_1a_3x3 x
  let x2 := s.conv2d_2a_3x3.constructVal p.conv2d_2a_3x3 x1
  let x3 := s.conv2d_2b_3x3.constructVal p.conv2d_2b_3x3 x2
  let a0 := s.mixed_3a_branch_0.constructVal x3
  let a1 := s.mixed_3a_branch_1.constructVal p.mixed_3a_branch_1 x3
  let x4 := concatVal [a0, a1]
  let b0 := applyCellsVal s.mixed_4a_branch_0 p.mixed_4a_branch_0 x4
  let b1 := applyCellsVal s.mixed_4a_branch_1 p.mixed_4a_branch_1 x4
  let x5 := concatVal [b0, b1]
  let c0 := s.mixed_5a_branch_0.constructVal p.mixed_5a_branch_0 x5
  let c1 := s.mixed_5a_branch_1.constructVal x5
  concatVal [c0, c1]

/-- Parameters of an `InceptionA`. -/
structure InceptionAParams where
  branch_0 : BasicConv2dParams
  branch_1 : List BasicConv2dParams
  branch_2 : List BasicConv2dParams
  branch_3 : List BasicConv2dParams
deriving DecidableEq, Repr

/-- Value semantics of `InceptionA.construct`. -/
def InceptionA.constructVal (m : InceptionA) (p : InceptionAParams) (x : Chans) : Chans :=
  concatVal [m.branch_0.constructVal p.branch_0 x,
             applyCellsVal m.branch_1 p.branch_1 x,
             applyCellsVal m.branch_2 p.branch_2 x,
             applyCellsVal m.branch_3 p.branch_3 x]

/-- Parameters of an `InceptionB`. -/
structure InceptionBParams where
  branch_0 : BasicConv2dParams
  branch_1 : List BasicConv2dParams
  branch_2 : List BasicConv2dParams
  branch_3 : List BasicConv2dParams
deriving DecidableEq, Repr

/-- Value semantics of `InceptionB.construct`. -/
def InceptionB.constructVal (m : InceptionB) (p : InceptionBParams) (x : Chans) : Chans :=
  concatVal [m.branch_0.constructVal p.branch_0 x,
             applyCellsVal m.branch_1 p.branch_1 x,
             applyCellsVal m.branch_2 p.branch_2 x,
             applyCellsVal m.branch_3 p.branch_3 x]

/-- Parameters of a `ReductionA`. -/
structure ReductionAParams where
  branch_0 : BasicConv2dParams
  branch_1 : List BasicConv2dParams
deriving DecidableEq, Repr

/-- Value semantics of `ReductionA.construct`. -/
def ReductionA.constructVal (m : ReductionA) (p : ReductionAParams) (x : Chans) : Chans :=
  concatVal [m.branch_0.constructVal p.branch_0 x,
             applyCellsVal m.branch_1 p.branch_1 x,
             m.branch_2.constructVal x]

/-- Parameters of a `ReductionB`. -/
structure ReductionBParams where
  branch_0 : List BasicConv2dParams
  branch_1 : List BasicConv2dParams
deriving DecidableEq, Repr

/-- Value semantics of `ReductionB.construct`. -/
def ReductionB.constructVal (m : ReductionB) (p : ReductionBParams) (x : Chans) : Chans :=
  concatVal [applyCellsVal m.branch_0 p.branch_0 x,
             applyCellsVal m.branch_1 p.branch_1 x,
             m.branch_2.constructVal x]

/-- Parameters of an `InceptionC`. -/
structure InceptionCParams where
  branch_0 : BasicConv2dParams
  branch_1 : BasicConv2dParams
  branch_1_1 : BasicConv2dParams
  branch_1_2 : BasicConv2dParams
  branch_2 : List BasicConv2dParams
  branch_2_1 : BasicConv2dParams
  branch_2_2 : BasicConv2dParams
  branch_3 : List BasicConv2dParams
deriving DecidableEq, Repr

/-- Value semantics of `InceptionC.construct`. -/
def InceptionC.constructVal (m : InceptionC) (p : InceptionCParams) (x : Chans) : Chans :=
  let x0 := m.branch_0.constructVal p.branch_0 x
  let y1 := m.branch_1.constructVal p.branch_1 x
  let x1 := concatVal [m.branch_1_1.constructVal p.branch_1_1 y1,
                       m.branch_1_2.constructVal p.branch_1_2 y1]
  let y2 := applyCellsVal m.branch_2 p.branch_2 x
  let x2 := concatVal [m.branch_2_1.constructVal p.branch_2_1 y2,
                       m.branch_2_2.constructVal p.branch_2_2 y2]
  let x3 := applyCellsVal m.branch_3 p.branch_3 x
  concatVal [x0, x1, x2, x3]

/-- Parameters of one block. -/
inductive BlockParams where
  | stem (p : StemParams)
  | inceptionA (p : InceptionAParams)
  | reductionA (p : ReductionAParams)
  | inceptionB (p : InceptionBParams)
  | reductionB (p : ReductionBParams)
  | inceptionC (p : InceptionCParams)
deriving DecidableEq, Repr

/-- Value semantics of one block.  A parameter record of the wrong kind
(impossible for well-formed parameters) leaves the input unchanged. -/
def Block.constructVal (b : Block) (p : BlockParams) (x : Chans) : Chans :=
  match b, p with
  | .stem m, .stem p => m.constructVal p x
  | .inceptionA m, .inceptionA p => m.constructVal p x
  | .reductionA m, .reductionA p => m.constructVal p x
  | .inceptionB m, .inceptionB p => m.constructVal p x
  | .reductionB m, .reductionB p => m.constructVal p x
  | .inceptionC m, .inceptionC p => m.constructVal p x
  | _, _ => x

/-- Value semantics of `nn.SequentialCell(blocks)`. -/
def applyBlocksVal : List Block → List BlockParams → Chans → Chans
  | b :: bs, p :: ps, x => applyBlocksVal bs ps (b.constructVal p x)
  | _, _, x => x

/-- Modelled from the spec: value semantics of `GlobalAvgPooling` (imported
from `.layers.pooling`, not under `src/`): the mean over the spatial
dimensions of each channel. -/
def gapVal (x : Chans) : List ℚ :=
  x.map fun img => (img.map List.sum).sum / ((img.length * (img.getD 0 []).length : Nat) : ℚ)

/-- Value semantics of `nn.Dropout(keep_prob)` on one feature vector in
training mode: entries whose mask bit is set are scaled by `1 / keep_prob`,
the others are zeroed. -/
def dropoutVec (keep_prob : ℚ) (mask : List Bool) (v : List ℚ) : List ℚ :=
  List.zipWith (fun m a => if m then a / keep_prob else 0) mask v

/-- Value semantics of `nn.Dropout(keep_prob)` on a `(batch, features)`
tensor: the identity when the cell is not in training mode, the masked
rescaling otherwise. -/
def dropoutVal (training : Bool) (keep_prob : ℚ) (masks : List (List Bool))
    (xs : List (List ℚ)) : List (List ℚ) :=
  if training then List.zipWith (dropoutVec keep_prob) masks xs else xs

/-- Value semantics of `nn.Dense` on one feature vector:
`weight · v + bias`, weight in output-major layout. -/
def denseVal (weight : List (List ℚ)) (bias : List ℚ) (v : List ℚ) : List ℚ :=
  List.zipWith (fun row b => (List.zipWith (fun a c => a * c) row v).sum + b) weight bias

/-- Parameters of the `nn.Dense` classifier. -/
structure DenseParams where
  weight : List (List ℚ)
  bias : List ℚ
deriving DecidableEq, Repr

/-- All trainable parameters of an `InceptionV4` model. -/
structure InceptionV4Params where
  features : List BlockParams
  classifier : DenseParams
deriving DecidableEq, Repr

/-- Value semantics of `InceptionV4.forward_features`. -/
def InceptionV4.forward_featuresVal (m : InceptionV4) (p : InceptionV4Params)
    (x : Batch) : Batch :=
  x.map (applyBlocksVal m.features p.features)

/-- Value semantics of `InceptionV4.forward_head`: pool, dropout,
classifier, in that order.  `training` is the cell's training flag and
`masks` the Bernoulli draws consumed by dropout in training mode. -/
def InceptionV4.forward_headVal (m : InceptionV4) (p : InceptionV4Params)
    (training : Bool) (masks : List (List Bool)) (x : Batch) : List (List ℚ) :=
  let pooled := x.map gapVal
  let dropped := dropoutVal training m.dropout_keep_prob masks pooled
  dropped.map (denseVal p.classifier.weight p.classifier.bias)

/-- Value semantics of `InceptionV4.construct`: `forward_features` then
`forward_head`. -/
def InceptionV4.constructVal (m : InceptionV4) (p : InceptionV4Params)
    (training : Bool) (masks : List (List Bool)) (x : Batch) : List (List ℚ) :=
  m.forward_headVal p training masks (m.forward_featuresVal p x)

/-! ## Theorems -/

/-- Claim C1: for every configured `num_classes` and every input tensor of
shape `(1, 3, 299, 299)`, the forward pass of `InceptionV4`
(`forward_features` followed by `forward_head`, as composed by `construct`)
returns a tensor of shape `(1, num_classes)`. -/
theorem inceptionV4_end_to_end_shape (num_classes : Nat) (drop_rate : ℚ) :
    (InceptionV4.make 3 num_classes drop_rate).construct ⟨1, 3, 299, 299⟩ =
      some ⟨1, num_classes⟩ := by
  have hf : (InceptionV4.make 3 num_classes drop_rate).forward_features
      ⟨1, 3, 299, 299⟩ = some ⟨1, 1536, 8, 8⟩ := by rfl
  simp [InceptionV4.construct, hf, InceptionV4.forward_head, Dense.construct,
    dropoutShape, GlobalAvgPooling.construct]
  exact ⟨rfl, rfl⟩

/-- Claim C2: for every input channel count and every batch size, `Stem`
applied to a `299 × 299` input produces a tensor with 384 channels and
spatial size `35 × 35`. -/
theorem stem_output_shape (in_channels n : Nat) :
    (Stem.make in_channels).construct ⟨n, in_channels, 299, 299⟩ =
      some ⟨n, 384, 35, 35⟩ := by
  simp [Stem.construct, Stem.make, BasicConv2d.construct, BasicConv2d.make,
    Conv2d.construct, BatchNorm2d.construct, MaxPool2d.construct, applyCells,
    Cell.construct, concat2, outDimSame, outDimValid, outDimPad]

/-- Claim C3: on any input tensor with the block's declared channel count
(384 for `InceptionA`, 1024 for `InceptionB`, 1536 for `InceptionC`) and
positive spatial size, each block returns a tensor with the same channel
count and the same spatial height and width as its input. -/
theorem inception_blocks_preserve_shape (n h w : Nat) (hh : 1 ≤ h) (hw : 1 ≤ w) :
    InceptionA.make.construct ⟨n, 384, h, w⟩ = some ⟨n, 384, h, w⟩ ∧
    InceptionB.make.construct ⟨n, 1024, h, w⟩ = some ⟨n, 1024, h, w⟩ ∧
    InceptionC.make.construct ⟨n, 1536, h, w⟩ = some ⟨n, 1536, h, w⟩ := by
  refine ⟨?_, ?_, ?_⟩
  · simp only [InceptionA.construct, InceptionA.make, applyCells, Cell.construct,
      BasicConv2d.construct, BasicConv2d.make, Conv2d.construct, BatchNorm2d.construct,
      AvgPool2d.construct, concat4, concat3, concat2, outDimSame, outDimValid, outDimPad]
    norm_num
    split_ifs <;> simp_all
  · simp only [InceptionB.construct, InceptionB.make, applyCells, Cell.construct,
      BasicConv2d.construct, BasicConv2d.make, Conv2d.construct, BatchNorm2d.construct,
      AvgPool2d.construct, concat4, concat3, concat2, outDimSame, outDimValid, outDimPad]
    norm_num
  · simp only [InceptionC.construct, InceptionC.make, applyCells, Cell.construct,
      BasicConv2d.construct, BasicConv2d.make, Conv2d.construct, BatchNorm2d.construct,
      AvgPool2d.construct, concat4, concat3, concat2, outDimSame, outDimValid, outDimPad]
    norm_num

/-- Witness for claim C3 at batch 1 and spatial size `35 × 35`. -/
theorem inception_blocks_preserve_shape_witness :
    (1 ≤ 35 ∧ 1 ≤ 35) ∧
    (InceptionA.make.construct ⟨1, 384, 35, 35⟩ = some ⟨1, 384, 35, 35⟩ ∧
     InceptionB.make.construct ⟨1, 1024, 35, 35⟩ = some ⟨1, 1024, 35, 35⟩ ∧
     InceptionC.make.construct ⟨1, 1536, 35, 35⟩ = some ⟨1, 1536, 35, 35⟩) :=
  ⟨⟨by decide, by decide⟩,
   inception_blocks_preserve_shape 1 35 35 (by decide) (by decide)⟩

/-- Claim C5: the feature extractor of `InceptionV4` is the sequential
composition of exactly 16 blocks, in the order `Stem`, four `InceptionA`,
`ReductionA`, seven `InceptionB`, `ReductionB`, three `InceptionC`; and the
head applied afterwards is global average pooling, then dropout, then the
fully-connected classifier, in that order. -/
theorem inceptionV4_block_order_and_head (in_channels num_classes : Nat)
    (drop_rate : ℚ) :
    (InceptionV4.make in_channels num_classes drop_rate).features.map Block.kind =
      [BlockKind.stem] ++ List.replicate 4 BlockKind.inceptionA ++
      [BlockKind.reductionA] ++ List.replicate 7 BlockKind.inceptionB ++
      [BlockKind.reductionB] ++ List.replicate 3 BlockKind.inceptionC ∧
    (∀ x, (InceptionV4.make in_channels num_classes drop_rate).construct x =
      ((InceptionV4.make in_channels num_classes drop_rate).forward_features x).bind
        (InceptionV4.make in_channels num_classes drop_rate).forward_head) ∧
    (∀ x, (InceptionV4.make in_channels num_classes drop_rate).forward_features x =
      applyBlocks (InceptionV4.make in_channels num_classes drop_rate).features x) ∧
    (∀ x, (InceptionV4.make in_channels num_classes drop_rate).forward_head x =
      (InceptionV4.make in_channels num_classes drop_rate).classifier.construct
        (dropoutShape (GlobalAvgPooling.construct x))) :=
  ⟨rfl, fun _ => rfl, fun _ => rfl, fun _ => rfl⟩

/-- Claim C4: for every batch size, `ReductionA` maps a `(384, 35, 35)`
input to a `(1024, 17, 17)` output, and `ReductionB` maps a
`(1024, 17, 17)` input to a `(1536, 8, 8)` output. -/
theorem reduction_blocks_output_shape (n : Nat) :
    ReductionA.make.construct ⟨n, 384, 35, 35⟩ = some ⟨n, 1024, 17, 17⟩ ∧
    ReductionB.make.construct ⟨n, 1024, 17, 17⟩ = some ⟨n, 1536, 8, 8⟩ := by
  refine ⟨?_, ?_⟩ <;>
    simp [ReductionA.construct, ReductionA.make, ReductionB.construct,
      ReductionB.make, applyCells, Cell.construct, BasicConv2d.construct,
      BasicConv2d.make, Conv2d.construct, BatchNorm2d.construct,
      MaxPool2d.construct, concat3, concat2, outDimSame, outDimValid, outDimPad]

/-- Claim C6: for every configured drop rate, in inference (non-training)
mode the dropout stage of `forward_head` is the identity, so `forward_head`
equals global average pooling followed directly by the classifier, for every
input, every parameter set and every random mask. -/
theorem forward_head_inference_dropout_identity (in_channels num_classes : Nat)
    (drop_rate : ℚ) (p : InceptionV4Params) (masks : List (List Bool))
    (xs : List (List ℚ)) (x : Batch) :
    dropoutVal false (1 - drop_rate) masks xs = xs ∧
    (InceptionV4.make in_channels num_classes drop_rate).forward_headVal p
        false masks x =
      (x.map gapVal).map (denseVal p.classifier.weight p.classifier.bias) := by
  refine ⟨rfl, ?_⟩
  simp [InceptionV4.forward_headVal, dropoutVal]

/-- Claim C7: two `InceptionV4` models built with the same `in_channels` and
`drop_rate` but different `num_classes` agree on every layer before the
classifier (the whole feature extractor, the pooling stage, the dropout keep
probability) and on the classifier input width and initializers; only the
classifier output width differs, and on every input the shapes through the
features, pooling and dropout stages coincide. -/
theorem num_classes_only_affects_classifier_width (in_channels nc1 nc2 : Nat)
    (drop_rate : ℚ) :
    (InceptionV4.make in_channels nc1 drop_rate).features =
      (InceptionV4.make in_channels nc2 drop_rate).features ∧
    (InceptionV4.make in_channels nc1 drop_rate).dropout_keep_prob =
      (InceptionV4.make in_channels nc2 drop_rate).dropout_keep_prob ∧
    (InceptionV4.make in_channels nc1 drop_rate).num_features =
      (InceptionV4.make in_channels nc2 drop_rate).num_features ∧
    (InceptionV4.make in_channels nc1 drop_rate).classifier.in_channels =
      (InceptionV4.make in_channels nc2 drop_rate).classifier.in_channels ∧
    (InceptionV4.make in_channels nc1 drop_rate).classifier.weight_init =
      (InceptionV4.make in_channels nc2 drop_rate).classifier.weight_init ∧
    (InceptionV4.make in_channels nc1 drop_rate).classifier.bias_init =
      (InceptionV4.make in_channels nc2 drop_rate).classifier.bias_init ∧
    (InceptionV4.make in_channels nc1 drop_rate).classifier.out_channels = nc1 ∧
    (InceptionV4.make in_channels nc2 drop_rate).classifier.out_channels = nc2 ∧
    (∀ x, (InceptionV4.make in_channels nc1 drop_rate).forward_features x =
      (InceptionV4.make in_channels nc2 drop_rate).forward_features x) ∧
    (∀ x, ((InceptionV4.make in_channels nc1 drop_rate).forward_features x).map
        (fun y => dropoutShape (GlobalAvgPooling.construct y)) =
      ((InceptionV4.make in_channels nc2 drop_rate).forward_features x).map
        (fun y => dropoutShape (GlobalAvgPooling.construct y))) :=
  ⟨rfl, rfl, rfl, rfl, rfl, rfl, rfl, rfl, fun _ => rfl, fun _ => rfl⟩

/-- Claim C8: after the post-construction `_initialize_weights` pass, a
parameter tensor carries the Xavier-uniform initializer exactly when it is a
convolution weight; all batch-normalization parameters and both classifier
parameters keep the framework default initializer.  There are 149
convolution weights in the model. -/
theorem initialize_weights_xavier_on_convs_only (in_channels num_classes : Nat)
    (drop_rate : ℚ) :
    ((InceptionV4.make in_channels num_classes drop_rate).params.all fun p =>
      p.init == if p.kind == ParamKind.convWeight then InitKind.xavierUniform
                else InitKind.default) = true ∧
    ((InceptionV4.make in_channels num_classes drop_rate).params.filter fun p =>
      p.kind == ParamKind.convWeight).length = 149 := by
  set_option maxRecDepth 100000 in exact ⟨rfl, rfl⟩

/-- Claim C9: every concatenation in the model joins branches whose outputs
have identical spatial height and width, differing only in channel count,
and the concatenation adds the channel counts.  The `Stem` branches are
taken at the shapes arising from a `299 × 299` input; the Inception blocks
at their declared input channel count and any spatial size; the reduction
blocks at any spatial size of at least `3 × 3`. -/
theorem concat_branches_spatial_agreement (n in_channels h w : Nat)
    (hh : 3 ≤ h) (hw : 3 ≤ w) :
    ((Stem.make in_channels).conv2d_1a_3x3.construct ⟨n, in_channels, 299, 299⟩ =
       some ⟨n, 32, 149, 149⟩ ∧
     (Stem.make in_channels).conv2d_2a_3x3.construct ⟨n, 32, 149, 149⟩ =
       some ⟨n, 32, 147, 147⟩ ∧
     (Stem.make in_channels).conv2d_2b_3x3.construct ⟨n, 32, 147, 147⟩ =
       some ⟨n, 64, 147, 147⟩ ∧
     (Stem.make in_channels).mixed_3a_branch_0.construct ⟨n, 64, 147, 147⟩ =
       some ⟨n, 64, 73, 73⟩ ∧
     (Stem.make in_channels).mixed_3a_branch_1.construct ⟨n, 64, 147, 147⟩ =
       some ⟨n, 96, 73, 73⟩ ∧
     concat2 ⟨n, 64, 73, 73⟩ ⟨n, 96, 73, 73⟩ = some ⟨n, 160, 73, 73⟩ ∧
     applyCells (Stem.make in_channels).mixed_4a_branch_0 ⟨n, 160, 73, 73⟩ =
       some ⟨n, 96, 71, 71⟩ ∧
     applyCells (Stem.make in_channels).mixed_4a_branch_1 ⟨n, 160, 73, 73⟩ =
       some ⟨n, 96, 71, 71⟩ ∧
     concat2 ⟨n, 96, 71, 71⟩ ⟨n, 96, 71, 71⟩ = some ⟨n, 192, 71, 71⟩ ∧
     (Stem.make in_channels).mixed_5a_branch_0.construct ⟨n, 192, 71, 71⟩ =
       some ⟨n, 192, 35, 35⟩ ∧
     (Stem.make in_channels).mixed_5a_branch_1.construct ⟨n, 192, 71, 71⟩ =
       some ⟨n, 192, 35, 35⟩) ∧
    (InceptionA.make.branch_0.construct ⟨n, 384, h, w⟩ = some ⟨n, 96, h, w⟩ ∧
     applyCells InceptionA.make.branch_1 ⟨n, 384, h, w⟩ = some ⟨n, 96, h, w⟩ ∧
     applyCells InceptionA.make.branch_2 ⟨n, 384, h, w⟩ = some ⟨n, 96, h, w⟩ ∧
     applyCells InceptionA.make.branch_3 ⟨n, 384, h, w⟩ = some ⟨n, 96, h, w⟩) ∧
    (InceptionB.make.branch_0.construct ⟨n, 1024, h, w⟩ = some ⟨n, 384, h, w⟩ ∧
     applyCells InceptionB.make.branch_1 ⟨n, 1024, h, w⟩ = some ⟨n, 256, h, w⟩ ∧
     applyCells InceptionB.make.branch_2 ⟨n, 1024, h, w⟩ = some ⟨n, 256, h, w⟩ ∧
     applyCells InceptionB.make.branch_3 ⟨n, 1024, h, w⟩ = some ⟨n, 128, h, w⟩) ∧
    (InceptionC.make.branch_0.construct ⟨n, 1536, h, w⟩ = some ⟨n, 256, h, w⟩ ∧
     InceptionC.make.branch_1.construct ⟨n, 1536, h, w⟩ = some ⟨n, 384, h, w⟩ ∧
     InceptionC.make.branch_1_1.construct ⟨n, 384, h, w⟩ = some ⟨n, 256, h, w⟩ ∧
     InceptionC.make.branch_1_2.construct ⟨n, 384, h, w⟩ = some ⟨n, 256, h, w⟩ ∧
     applyCells InceptionC.make.branch_2 ⟨n, 1536, h, w⟩ = some ⟨n, 512, h, w⟩ ∧
     InceptionC.make.branch_2_1.construct ⟨n, 512, h, w⟩ = some ⟨n, 256, h, w⟩ ∧
     InceptionC.make.branch_2_2.construct ⟨n, 512, h, w⟩ = some ⟨n, 256, h, w⟩ ∧
     applyCells InceptionC.make.branch_3 ⟨n, 1536, h, w⟩ = some ⟨n, 256, h, w⟩) ∧
    (ReductionA.make.branch_0.construct ⟨n, 384, h, w⟩ =
       some ⟨n, 384, (h - 1) / 2, (w - 1) / 2⟩ ∧
     applyCells ReductionA.make.branch_1 ⟨n, 384, h, w⟩ =
       some ⟨n, 256, (h - 1) / 2, (w - 1) / 2⟩ ∧
     ReductionA.make.branch_2.construct ⟨n, 384, h, w⟩ =
       some ⟨n, 384, (h - 1) / 2, (w - 1) / 2⟩) ∧
    (applyCells ReductionB.make.branch_0 ⟨n, 1024, h, w⟩ =
       some ⟨n, 192, (h - 1) / 2, (w - 1) / 2⟩ ∧
     applyCells ReductionB.make.branch_1 ⟨n, 1024, h, w⟩ =
       some ⟨n, 320, (h - 1) / 2, (w - 1) / 2⟩ ∧
     ReductionB.make.branch_2.construct ⟨n, 1024, h, w⟩ =
       some ⟨n, 1024, (h - 1) / 2, (w - 1) / 2⟩) := by
  refine ⟨⟨?_, ?_, ?_, ?_, ?_, ?_, ?_, ?_, ?_, ?_, ?_⟩, ⟨?_, ?_, ?_, ?_⟩,
    ⟨?_, ?_, ?_, ?_⟩, ⟨?_, ?_, ?_, ?_, ?_, ?_, ?_, ?_⟩, ⟨?_, ?_, ?_⟩, ⟨?_, ?_, ?_⟩⟩
  all_goals simp only [Stem.make, InceptionA.make, InceptionB.make, InceptionC.make,
    ReductionA.make, ReductionB.make, BasicConv2d.construct, BasicConv2d.make,
    Conv2d.construct, BatchNorm2d.construct, MaxPool2d.construct, AvgPool2d.construct,
    applyCells, Cell.construct, concat2, outDimSame, outDimValid, outDimPad]
  all_goals norm_num
  all_goals (try (split_ifs <;> simp_all <;> omega))
  all_goals (try omega)

/-- Witness for claim C9 at batch 1, input channels 3 and spatial size
`35 × 35` (so the halved spatial size is `17 × 17`). -/
theorem concat_branches_spatial_agreement_witness :
    (3 ≤ 35 ∧ 3 ≤ 35) ∧
    (((Stem.make 3).conv2d_1a_3x3.construct ⟨1, 3, 299, 299⟩ =
        some ⟨1, 32, 149, 149⟩ ∧
      (Stem.make 3).conv2d_2a_3x3.construct ⟨1, 32, 149, 149⟩ =
        some ⟨1, 32, 147, 147⟩ ∧
      (Stem.make 3).conv2d_2b_3x3.construct ⟨1, 32, 147, 147⟩ =
        some ⟨1, 64, 147, 147⟩ ∧
      (Stem.make 3).mixed_3a_branch_0.construct ⟨1, 64, 147, 147⟩ =
        some ⟨1, 64, 73, 73⟩ ∧
      (Stem.make 3).mixed_3a_branch_1.construct ⟨1, 64, 147, 147⟩ =
        some ⟨1, 96, 73, 73⟩ ∧
      concat2 ⟨1, 64, 73, 73⟩ ⟨1, 96, 73, 73⟩ = some ⟨1, 160, 73, 73⟩ ∧
      applyCells (Stem.make 3).mixed_4a_branch_0 ⟨1, 160, 73, 73⟩ =
        some ⟨1, 96, 71, 71⟩ ∧
      applyCells (Stem.make 3).mixed_4a_branch_1 ⟨1, 160, 73, 73⟩ =
        some ⟨1, 96, 71, 71⟩ ∧
      concat2 ⟨1, 96, 71, 71⟩ ⟨1, 96, 71, 71⟩ = some ⟨1, 192, 71, 71⟩ ∧
      (Stem.make 3).mixed_5a_branch_0.construct ⟨1, 192, 71, 71⟩ =
        some ⟨1, 192, 35, 35⟩ ∧
      (Stem.make 3).mixed_5a_branch_1.construct ⟨1, 192, 71, 71⟩ =
        some ⟨1, 192, 35, 35⟩) ∧
     (InceptionA.make.branch_0.construct ⟨1, 384, 35, 35⟩ = some ⟨1, 96, 35, 35⟩ ∧
      applyCells InceptionA.make.branch_1 ⟨1, 384, 35, 35⟩ = some ⟨1, 96, 35, 35⟩ ∧
      applyCells InceptionA.make.branch_2 ⟨1, 384, 35, 35⟩ = some ⟨1, 96, 35, 35⟩ ∧
      applyCells InceptionA.make.branch_3 ⟨1, 384, 35, 35⟩ = some ⟨1, 96, 35, 35⟩) ∧
     (InceptionB.make.branch_0.construct ⟨1, 1024, 35, 35⟩ = some ⟨1, 384, 35, 35⟩ ∧
      applyCells InceptionB.make.branch_1 ⟨1, 1024, 35, 35⟩ = some ⟨1, 256, 35, 35⟩ ∧
      applyCells InceptionB.make.branch_2 ⟨1, 1024, 35, 35⟩ = some ⟨1, 256, 35, 35⟩ ∧
      applyCells InceptionB.make.branch_3 ⟨1, 1024, 35, 35⟩ = some ⟨1, 128, 35, 35⟩) ∧
     (InceptionC.make.branch_0.construct ⟨1, 1536, 35, 35⟩ = some ⟨1, 256, 35, 35⟩ ∧
      InceptionC.make.branch_1.construct ⟨1, 1536, 35, 35⟩ = some ⟨1, 384, 35, 35⟩ ∧
      InceptionC.make.branch_1_1.construct ⟨1, 384, 35, 35⟩ = some ⟨1, 256, 35, 35⟩ ∧
      InceptionC.make.branch_1_2.construct ⟨1, 384, 35, 35⟩ = some ⟨1, 256, 35, 35⟩ ∧
      applyCells InceptionC.make.branch_2 ⟨1, 1536, 35, 35⟩ = some ⟨1, 512, 35, 35⟩ ∧
      InceptionC.make.branch_2_1.construct ⟨1, 512, 35, 35⟩ = some ⟨1, 256, 35, 35⟩ ∧
      InceptionC.make.branch_2_2.construct ⟨1, 512, 35, 35⟩ = some ⟨1, 256, 35, 35⟩ ∧
      applyCells InceptionC.make.branch_3 ⟨1, 1536, 35, 35⟩ = some ⟨1, 256, 35, 35⟩) ∧
     (ReductionA.make.branch_0.construct ⟨1, 384, 35, 35⟩ = some ⟨1, 384, 17, 17⟩ ∧
      applyCells ReductionA.make.branch_1 ⟨1, 384, 35, 35⟩ = some ⟨1, 256, 17, 17⟩ ∧
      ReductionA.make.branch_2.construct ⟨1, 384, 35, 35⟩ = some ⟨1, 384, 17, 17⟩) ∧
     (applyCells ReductionB.make.branch_0 ⟨1, 1024, 35, 35⟩ = some ⟨1, 192, 17, 17⟩ ∧
      applyCells ReductionB.make.branch_1 ⟨1, 1024, 35, 35⟩ = some ⟨1, 320, 17, 17⟩ ∧
      ReductionB.make.branch_2.construct ⟨1, 1024, 35, 35⟩ = some ⟨1, 1024, 17, 17⟩)) :=
  ⟨⟨by decide, by decide⟩,
   concat_branches_spatial_agreement 1 3 35 35 (by decide) (by decide)⟩

/-- Claim C10: in inference (non-training) mode the value-level forward pass
is deterministic: with the model parameters fixed, the output of
`InceptionV4.construct` on a given input does not depend on the random
dropout draws, so two evaluations on equal inputs return equal outputs. -/
theorem construct_inference_deterministic (m : InceptionV4)
    (p : InceptionV4Params) (masks1 masks2 : List (List Bool)) (x : Batch) :
    m.constructVal p false masks1 x = m.constructVal p false masks2 x := by
  simp [InceptionV4.constructVal, InceptionV4.forward_headVal, dropoutVal]

end MindCV
